import Mathlib

/-!
A shallow embedding of the Youtube-Channel-Summarizer pipeline services, and
proofs about the stage-handoff framework: queue relay, event sink, status
transitions, the async bridge, the chunked transcriber, and the discovery loop.

Python sources are embedded as executable Lean definitions.  External
collaborators (broker, database commit, yt-dlp, speech recognizer) are
abstracted as explicit outcome parameters, so each embedded function is a pure
function of the collaborator outcomes.  Statuses are modelled as the strings
the call sites assign (the `VideoStatus` enum is imported from
`postgresql_client` but its definition is absent from the tree; its member
names are taken from the call sites).
-/

namespace YCS

/-- Service types, from `src/enums/service_enums.py` (`ServiceType`). -/
inductive ServiceType
  | discovery
  | download
  | audioExtraction
  | transcription
  | summarization
  deriving DecidableEq, Repr

/-- Queue name for each service, from the `queue_map` in `ServiceTemplate.__init__`. -/
def queueMap : ServiceType → String
  | .discovery => "discovery_queue"
  | .download => "download_queue"
  | .audioExtraction => "audio_extraction_queue"
  | .transcription => "transcription_queue"
  | .summarization => "summarization_queue"

/-- Next queue per service, from `_next_queue_map` in
`ServiceTemplate._setup_mappings`.  The map is built once at construction and
never consults the work item. -/
def nextQueueMap : ServiceType → Option String
  | .discovery => some "download_queue"
  | .download => some "audio_extraction_queue"
  | .audioExtraction => some "transcription_queue"
  | .transcription => some "summarization_queue"
  | .summarization => none

/-- In-progress status per service, from `_status_map` in
`ServiceTemplate._setup_mappings` (discovery is special: `None`). -/
def statusMapInProgress : ServiceType → Option String
  | .discovery => none
  | .download => some "DOWNLOADING"
  | .audioExtraction => some "AUDIO_EXTRACTING"
  | .transcription => some "TRANSCRIBING"
  | .summarization => some "SUMMARIZING"

/-- Completion status per service, from `_status_map` in
`ServiceTemplate._setup_mappings`. -/
def statusMapCompletion : ServiceType → Option String
  | .discovery => none
  | .download => some "DOWNLOADED"
  | .audioExtraction => some "AUDIO_EXTRACTED"
  | .transcription => some "TRANSCRIBED"
  | .summarization => some "COMPLETED"

/-! ## Queue relay (`src/utils/queue_client.py`, `src/utils/queue_manager.py`) -/

/-- Outcome of a single `basic_publish` attempt against the broker. -/
inductive PubAttempt
  | ok
  | streamLost
  | otherError
  deriving DecidableEq, Repr

/-- What a publish call produced: whether the broker got the message, and
whether an exception escaped to the caller. -/
structure PubResult where
  delivered : Bool
  raised : Bool
  deriving DecidableEq, Repr

/-- `QueueClient.publish_message`.  The first attempt may succeed, raise
`StreamLostError`, or raise some other exception.  On stream loss the client
reconnects and retries exactly once, catching any retry failure; every other
exception is caught and logged.  No exception ever escapes to the caller.
`a1` is the outcome of the first attempt, `a2` of the retry (consulted only
after a stream-lost first attempt). -/
def publishMessage : PubAttempt → PubAttempt → PubResult
  | .ok, _ => ⟨true, false⟩
  | .streamLost, .ok => ⟨true, false⟩
  | .streamLost, _ => ⟨false, false⟩
  | .otherError, _ => ⟨false, false⟩

/-- `QueueManager.send_message`: declares the queue, publishes, and returns
`True` when no exception propagated (catching any into `False`).
`declareRaises` abstracts a raising `declare_queue`.  Returns
(return value, whether the message was delivered to the broker). -/
def sendMessage (declareRaises : Bool) (a1 a2 : PubAttempt) : Bool × Bool :=
  if declareRaises then (false, false)
  else (true, (publishMessage a1 a2).delivered)

/-! ## Event sink (`src/utils/event_publisher.py`, `src/utils/kafka_producer.py`,
`src/utils/event_manager.py`) -/

/-- `EventPublisher.publish` on the fanout exchange: same structure as
`QueueClient.publish_message` — one retry after stream loss, every exception
caught, never re-raises. -/
def eventPublisherPublish : PubAttempt → PubAttempt → PubResult
  | .ok, _ => ⟨true, false⟩
  | .streamLost, .ok => ⟨true, false⟩
  | .streamLost, _ => ⟨false, false⟩
  | .otherError, _ => ⟨false, false⟩

/-- `KafkaEventProducer.send_event`: first send attempt; on any failure it
reconnects and retries once; returns the record metadata (`some`) on success
and `None` on failure; never raises (result, raised). -/
def kafkaSendEvent (a1 a2 : Bool) : Option Unit × Bool :=
  if a1 then (some (), false)
  else if a2 then (some (), false)
  else (none, false)

/-- `EventManager._publish_event_to_rabbitmq`: wraps the publisher call in
try/except, returning `False` exactly when the call raised.  Since
`EventPublisher.publish` never raises, this is `True` for every broker
outcome. -/
def publishEventToRabbitmq (a1 a2 : PubAttempt) : Bool :=
  if (eventPublisherPublish a1 a2).raised then false else true

/-- `EventManager._publish_event_to_kafka`: same try/except wrapper around
`KafkaEventProducer.send_event`, which never raises. -/
def publishEventToKafka (a1 a2 : Bool) : Bool :=
  if (kafkaSendEvent a1 a2).2 then false else true

/-- `EventManager.publish_event`: publishes to both channels and returns
`True` when at least one wrapper reported success. -/
def publishEvent (r1 r2 : PubAttempt) (k1 k2 : Bool) : Bool :=
  publishEventToRabbitmq r1 r2 || publishEventToKafka k1 k2

/-! ## Work item rows (`src/utils/postgresql_client.py`) -/

/-- One row of the `videos` table, restricted to the fields the claims touch.
`stage` defaults to `ServiceType.DISCOVERY.name` and is never written by any
service; `status` defaults to `PENDING` at creation by discovery. -/
structure VideoRow where
  id : String
  status : String
  stage : String := "DISCOVERY"
  videoFilePath : Option String := none
  audioFilePath : Option String := none
  deriving DecidableEq, Repr

/-- What a stage run left behind: the finally persisted row (`none` when the
row was absent) and the handoff messages actually delivered to the broker,
as (queue name, video id) pairs. -/
structure StageRunResult where
  persisted : Option VideoRow
  deliveredMsgs : List (String × String)
  deriving DecidableEq, Repr

/-! ## Download stage (`src/services/download_service/app.py`) -/

/-- `process_download_task_internal`.  `video` is the row found by id (`none`
means absent: log and abort).  `dl` abstracts `video_downloader.download_video`
(`some path` on success, `none` on failure).  `declareRaises` is whether
`declare_queue` raises inside the handoff try-block; `a1 a2` are the broker
outcomes of the handoff `publish_message`.  The session is modelled as the
pair (persisted row, in-memory row): `commit` copies in-memory to persisted,
`rollback` discards the in-memory changes.  Event publishing happens after the
commit and touches neither the row nor the handoff, so it is omitted here. -/
def processDownloadTaskInternal (video : Option VideoRow) (dl : Option String)
    (declareRaises : Bool) (a1 a2 : PubAttempt) : StageRunResult :=
  match video with
  | none => ⟨none, []⟩
  | some v =>
    -- video.status = DOWNLOADING; session.commit()
    let v1 := { v with status := "DOWNLOADING" }
    match dl with
    | none =>
      -- downloader returned None: video.status = FAILED; session.commit()
      ⟨some { v1 with status := "FAILED" }, []⟩
    | some path =>
      -- in-memory only: video.status = DOWNLOADED; video.video_file_path = path
      let v2 := { v1 with status := "DOWNLOADED", videoFilePath := some path }
      if declareRaises then
        -- except branch: session.rollback(); return — persisted row stays v1
        ⟨some v1, []⟩
      else
        let pr := publishMessage a1 a2
        -- publish_message never raises, so control always reaches session.commit()
        ⟨some v2, if pr.delivered then [("audio_extraction_queue", v.id)] else []⟩

/-! ## Generic template (`src/patterns/ServiceTemplatePattern.py`) -/

/-- What `ServiceTemplate.handle_success` left behind: its return value, the
completion status committed to the store by `update_video` (`none` when the
update failed, so nothing was committed), and whether the handoff message
reached the broker. -/
structure HandleSuccessResult where
  ret : Bool
  committedStatus : Option String
  handoffDelivered : Bool
  deriving DecidableEq, Repr

/-- `ServiceTemplate.handle_success`: commit the completion status via
`db_manager.update_video` FIRST; then, if the service has a next queue, send
the handoff via `queue_manager.send_message`; finally publish a best-effort
event whose result is discarded.  `updateOk` abstracts `update_video`. -/
def handleSuccess (svc : ServiceType) (updateOk : Bool) (declareRaises : Bool)
    (a1 a2 : PubAttempt) (r1 r2 : PubAttempt) (k1 k2 : Bool) : HandleSuccessResult :=
  if updateOk then
    match nextQueueMap svc with
    | some _ =>
      let sent := sendMessage declareRaises a1 a2
      if sent.1 then
        let _ := publishEvent r1 r2 k1 k2
        ⟨true, statusMapCompletion svc, sent.2⟩
      else
        -- send_message returned False, but the status update is already committed
        ⟨false, statusMapCompletion svc, sent.2⟩
    | none =>
      let _ := publishEvent r1 r2 k1 k2
      ⟨true, statusMapCompletion svc, false⟩
  else ⟨false, none, false⟩

/-! ## Artifact cache checks (`src/pipeline/VideoDownloader.py`,
`src/pipeline/AudioExtractor.py`, `src/utils/common_logger.py`) -/

/-- `common_logger.sanitize_filename`: strip the characters
`\ / : * ? " < > |`, replace spaces with underscores, truncate to
`MAX_FILENAME_LENGTH = 100`. -/
def sanitizeFilename (filename : String) : String :=
  let stripped := String.mk (filename.toList.filter
    (fun c => !(c = '\\' || c = '/' || c = ':' || c = '*' || c = '?' ||
                c = '\"' || c = '<' || c = '>' || c = '|')))
  let replaced := String.mk (stripped.toList.map (fun c => if c = ' ' then '_' else c))
  String.mk (replaced.toList.take 100)

/-- The deterministic audio artifact path computed at the top of
`AudioDownloader.download_audio`: a pure function of the save directory and
the identity fields (title, upload date, video id) — never of time or attempt
count. -/
def audioFilepath (saveDir videoTitle uploadDate videoId : String) : String :=
  saveDir ++ "/" ++ sanitizeFilename videoTitle ++ "-" ++ uploadDate ++ "-" ++ videoId ++ ".wav"

/-- `AudioDownloader.download_audio`: check whether the artifact already
exists at the deterministic path; a hit returns it with no yt-dlp call.
Otherwise run yt-dlp (`ydlOk` abstracts its outcome), one external call.
Returns (result, number of external collaborator calls). -/
def downloadAudio (outputExists : Bool) (ydlOk : Bool)
    (saveDir videoTitle uploadDate videoId : String) : Option String × Nat :=
  let path := audioFilepath saveDir videoTitle uploadDate videoId
  if outputExists then (some path, 0)
  else if ydlOk then (some path, 1) else (none, 1)

/-- `AudioExtractor.extract_audio`: `_check_file_exists` short-circuits to
`True` with no ffmpeg call when the audio artifact already exists.
Returns (success, number of external calls). -/
def extractAudio (outputExists : Bool) (extractOk : Bool) : Bool × Nat :=
  if outputExists then (true, 0) else (extractOk, 1)

/-! ## Chunked transcriber (`src/pipeline/AudioTranscriber.py`) -/

/-- Outcome of recognizing one chunk inside `_transcribe_chunk_sync`. -/
inductive RecognizeOutcome
  | ok (text : String)
  | unknownValue
  | requestError (msg : String)
  | unexpectedError
  deriving DecidableEq, Repr

/-- `_transcribe_chunk_sync`: a successful recognition returns the text with a
newline appended; each failure kind is caught and mapped to its placeholder
string.  This function never raises. -/
def transcribeChunkSync : RecognizeOutcome → String
  | .ok t => t ++ "\n"
  | .unknownValue => "[unintelligible]\n"
  | .requestError m => "[request error: " ++ m ++ "]\n"
  | .unexpectedError => "[unexpected transcription error]\n"

/-- Behaviour of one chunk task as delivered through
`asyncio.gather(..., return_exceptions=True)`: either the executor ran
`_transcribe_chunk_sync` to an outcome, or the task itself surfaced an
exception object. -/
inductive ChunkTask
  | ran (o : RecognizeOutcome)
  | taskError
  deriving DecidableEq, Repr

/-- `_process_chunks_concurrently` over the given chunk indices: each task
yields the sync result string or an exception. -/
def processChunksConcurrently (oracle : Nat → ChunkTask) (idxs : List Nat) :
    List (Except Unit String) :=
  idxs.map fun i =>
    match oracle i with
    | .ran o => .ok (transcribeChunkSync o)
    | .taskError => .error ()

/-- `_handle_transcription_results`: exception entries are replaced by the
generic placeholder, string entries pass through. -/
def handleTranscriptionResults (rs : List (Except Unit String)) : List String :=
  rs.map fun r =>
    match r with
    | .error _ => "[transcription error]\n"
    | .ok s => s

/-- The number of chunks `_prepare_chunks_info` produces: the length of
`range(0, audioLen, chunkLen)` for a positive step (the source always passes
`AUDIO_CHUNK_LENGTH_MS = 10000`). -/
def numChunks (audioLen chunkLen : Nat) : Nat :=
  (audioLen + chunkLen - 1) / chunkLen

/-- The chunk indices `_prepare_chunks_info` enumerates. -/
def prepareChunksIdx (audioLen chunkLen : Nat) : List Nat :=
  List.range (numChunks audioLen chunkLen)

/-- `transcribe_audio`: return `None` exactly when the audio file does not
exist; otherwise split into chunks, transcribe them concurrently, substitute
placeholders for failures, and join the segments with a single space.  The
audio file is abstracted into its existence flag, its length, and the
per-chunk recognition outcomes. -/
def transcribeAudio (fileExists : Bool) (audioLen chunkLen : Nat)
    (oracle : Nat → ChunkTask) : Option String :=
  if fileExists then
    some (String.intercalate " "
      (handleTranscriptionResults
        (processChunksConcurrently oracle (prepareChunksIdx audioLen chunkLen))))
  else none

/-! ## Transcription stage (`src/services/transcription_service/app.py`) -/

/-- What a transcription run left behind, plus the number of external
recognition calls it made (one per chunk actually transcribed). -/
structure TransRunResult where
  persisted : Option VideoRow
  deliveredMsgs : List (String × String)
  externalCalls : Nat
  deriving DecidableEq, Repr

/-- `process_transcription_task_internal`.  Aborts when the row or its
`audio_file_path` is missing.  It NEVER consults `transcriptExists` (whether
the transcription output artifact already exists at its deterministic path):
`transcribe_audio` is invoked unconditionally, performing one external
recognition call per chunk whenever the audio file exists. -/
def processTranscriptionTaskInternal (video : Option VideoRow)
    (transcriptExists : Bool) (audioExists : Bool) (audioLen chunkLen : Nat)
    (oracle : Nat → ChunkTask) (declareRaises : Bool) (a1 a2 : PubAttempt) :
    TransRunResult :=
  let _ := transcriptExists
  match video with
  | none => ⟨none, [], 0⟩
  | some v =>
    match v.audioFilePath with
    | none => ⟨some v, [], 0⟩
    | some _ =>
      -- video.status = TRANSCRIBING; session.commit()
      let v1 := { v with status := "TRANSCRIBING" }
      let tr := transcribeAudio audioExists audioLen chunkLen oracle
      let calls := if audioExists then numChunks audioLen chunkLen else 0
      match tr with
      | some _ =>
        -- in-memory: video.status = TRANSCRIBED
        let v2 := { v1 with status := "TRANSCRIBED" }
        if declareRaises then
          -- except branch: session.rollback(); return
          ⟨some v1, [], calls⟩
        else
          let pr := publishMessage a1 a2
          -- publish_message never raises; session.commit() always follows
          ⟨some v2, if pr.delivered then [("summarization_queue", v.id)] else [], calls⟩
      | none =>
        ⟨some { v1 with status := "FAILED" }, [], calls⟩

/-! ## Discovery stage (`src/services/discovery_service/app.py`) -/

/-- The metadata `fetch_video_details` returns for a candidate.  Durations are
modelled as rationals (the source compares Python floats). -/
structure VideoDetails where
  videoTitle : String
  uploadDate : String
  duration : Option ℚ
  hasCaptions : Bool
  deriving DecidableEq, Repr

/-- `_is_video_valid` (discovery app): no duration means invalid; no length
limit means valid; an over-long video is valid only when the captionless-only
flag is set and the video has captions. -/
def isVideoValid (d : VideoDetails) (maxLength : Option ℚ)
    (applyMaxLengthForCaptionlessOnly : Bool) : Bool :=
  match d.duration with
  | none => false
  | some dur =>
    match maxLength with
    | none => true
    | some ml =>
      let isTooLong := decide (dur / 60 > ml)
      if isTooLong then
        if applyMaxLengthForCaptionlessOnly && d.hasCaptions then true else false
      else true

/-- Running state of the discovery loop: the ids committed to the status
store, the handoff publish calls made as (queue, video id) pairs, and
`videos_to_process_count`. -/
structure DiscoveryState where
  dbIds : List String
  msgs : List (String × String)
  count : Nat
  deriving DecidableEq, Repr

/-- The body of the discovery loop for one candidate entry.  An id already in
the store is skipped with `continue` (no row, no publish call, no count).  A
candidate whose details cannot be fetched, or which fails the filter, is also
skipped.  For a new valid candidate the row is added to the session, the
handoff published, and the session committed; the except/rollback branch
mirrors the source but is unreachable because `publish_message` never
raises. -/
def processDiscoveryEntry (fetch : String → Option VideoDetails)
    (maxLength : Option ℚ) (applyFlag : Bool) (pubs : String → PubAttempt × PubAttempt)
    (st : DiscoveryState) (entryId : String) : DiscoveryState :=
  if entryId ∈ st.dbIds then st
  else
    match fetch entryId with
    | none => st
    | some d =>
      if isVideoValid d maxLength applyFlag then
        let pr := publishMessage (pubs entryId).1 (pubs entryId).2
        if pr.raised then st
        else
          { dbIds := entryId :: st.dbIds
            msgs := st.msgs ++ [("download_queue", entryId)]
            count := st.count + 1 }
      else st

/-- The candidate loop of `process_discovery_task_internal`: process each
entry in order; after each one, stop when the configured limit
(`num_videos_to_process`, `none` = unlimited) has been reached. -/
def runDiscovery (fetch : String → Option VideoDetails) (maxLength : Option ℚ)
    (applyFlag : Bool) (pubs : String → PubAttempt × PubAttempt)
    (limit : Option Nat) : DiscoveryState → List String → DiscoveryState
  | st, [] => st
  | st, e :: rest =>
    let st1 := processDiscoveryEntry fetch maxLength applyFlag pubs st e
    match limit with
    | some n =>
      if st1.count ≥ n then st1
      else runDiscovery fetch maxLength applyFlag pubs limit st1 rest
    | none => runDiscovery fetch maxLength applyFlag pubs limit st1 rest

/-! ## Async concurrency bridge (`src/utils/async_helper.py`) -/

/-- The scheduler event loop as the bridge sees it: whether it has been
closed, and the units of work scheduled onto it. -/
structure EventLoopSt (β : Type) where
  closed : Bool
  pending : List (Unit → β)

/-- `ServiceAsyncProcessor` state: `loop = none` models a loop that was not
set (`set_loop` not called, or the `loop_set` readiness signal not observed
within the `ASYNC_HELPER_TIMEOUT` bounded wait); `internalTasks` counts the
tracked handles in `self.internal_tasks`. -/
structure ProcessorState (β : Type) where
  loop : Option (EventLoopSt β)
  internalTasks : Nat

/-- `ServiceAsyncProcessor.set_loop`. -/
def setLoop {β : Type} (st : ProcessorState β) (l : EventLoopSt β) : ProcessorState β :=
  { st with loop := some l }

/-- What `schedule_task` returned: a tracking handle for a unit handed to the
event loop, or the value of the unit after running it synchronously in the
caller's context (the fallback executor path). -/
inductive ScheduleOutcome (β : Type)
  | scheduled
  | ranSync (value : β)

/-- The readiness test `schedule_task` performs after its bounded wait:
`self.loop and not self.loop.is_closed()`. -/
def loopAvailable {β : Type} : Option (EventLoopSt β) → Bool
  | none => false
  | some l => !l.closed

/-- `ServiceAsyncProcessor.schedule_task`: wait (bounded) for the readiness
signal; if the loop is set and open, hand the unit to it via
`run_coroutine_threadsafe` and track the task; otherwise run the unit
synchronously via `asyncio.run` in a throwaway executor, still tracking a
handle.  Either way the unit is executed or queued, never dropped. -/
def scheduleTask {β : Type} (st : ProcessorState β) (u : Unit → β) :
    ScheduleOutcome β × ProcessorState β :=
  match st.loop with
  | some l =>
    if l.closed then
      (.ranSync (u ()), { st with internalTasks := st.internalTasks + 1 })
    else
      (.scheduled,
        { loop := some { l with pending := l.pending ++ [u] }
          internalTasks := st.internalTasks + 1 })
  | none => (.ranSync (u ()), { st with internalTasks := st.internalTasks + 1 })

/-! ## Status reachability (all service apps plus the template maps) -/

/-- The (status, stage) projection of a work item row. -/
structure ItemState where
  status : String
  stage : String
  deriving DecidableEq, Repr

/-- One status write by a stage service, as performed at the assignment sites
of the service apps and the `ServiceTemplate` status maps: an in-progress
marker, a completion status, or FAILED (every service writes FAILED on any
failure, regardless of the current status).  No site ever writes `stage`. -/
inductive ItemStep : ItemState → ItemState → Prop
  | inProgress (svc : ServiceType) (s : ItemState) (st : String)
      (h : statusMapInProgress svc = some st) : ItemStep s { s with status := st }
  | completion (svc : ServiceType) (s : ItemState) (st : String)
      (h : statusMapCompletion svc = some st) : ItemStep s { s with status := st }
  | failure (s : ItemState) : ItemStep s { s with status := "FAILED" }

/-- States reachable from creation: discovery inserts rows with status
`PENDING` and the model default stage `DISCOVERY`, then services take
`ItemStep` writes. -/
inductive ReachableItem : ItemState → Prop
  | init : ReachableItem ⟨"PENDING", "DISCOVERY"⟩
  | step {s t : ItemState} : ReachableItem s → ItemStep s t → ReachableItem t

/-- The statuses the running code can store, per the call sites. -/
def allowedStatuses : List String :=
  ["PENDING", "DOWNLOADING", "DOWNLOADED", "AUDIO_EXTRACTING", "AUDIO_EXTRACTED",
   "TRANSCRIBING", "TRANSCRIBED", "SUMMARIZING", "COMPLETED", "FAILED"]

/-! ## Spec-side vocabulary for the transcription scenario -/

/-- The ways one chunk can fail: the three recognizer failures caught inside
`_transcribe_chunk_sync`, or the chunk task itself erroring through
`asyncio.gather`. -/
inductive FailingKind
  | unknownValue
  | requestError (msg : String)
  | unexpectedError
  | taskError

/-- The chunk-task behaviour realizing a failure kind. -/
def FailingKind.toTask : FailingKind → ChunkTask
  | .unknownValue => .ran .unknownValue
  | .requestError m => .ran (.requestError m)
  | .unexpectedError => .ran .unexpectedError
  | .taskError => .taskError

/-- The placeholder segment the pipeline substitutes for each failure kind. -/
def FailingKind.placeholder : FailingKind → String
  | .unknownValue => "[unintelligible]\n"
  | .requestError m => "[request error: " ++ m ++ "]\n"
  | .unexpectedError => "[unexpected transcription error]\n"
  | .taskError => "[transcription error]\n"

/-- A five-chunk audio in which chunk 3 (index 2) fails with the given kind
and the other four chunks transcribe successfully. -/
def chunkScenario5 (t0 t1 t3 t4 : String) (fk : FailingKind) : Nat → ChunkTask :=
  fun i =>
    if i = 0 then .ran (.ok t0)
    else if i = 1 then .ran (.ok t1)
    else if i = 2 then fk.toTask
    else if i = 3 then .ran (.ok t3)
    else .ran (.ok t4)

/-! ## Theorems -/

/-- C1: the download service commits the WorkItem update even when the
handoff publish failed.  At this input the row exists, the download succeeds,
and both broker attempts of the handoff publish fail with a non-stream-lost
error; `publish_message` swallows the failure, so `session.commit()` runs and
the persisted status becomes DOWNLOADED while no successor message was
delivered — contradicting the publish-before-commit rule and the code's own
"Only commit after queue message is successfully sent" comment. -/
theorem c1_download_commits_despite_failed_publish :
    processDownloadTaskInternal
      (some { id := "vid1", status := "PENDING" }) (some "/data/vid1.mp4")
      false .otherError .otherError =
    ⟨some { id := "vid1", status := "DOWNLOADED", stage := "DISCOVERY",
            videoFilePath := some "/data/vid1.mp4", audioFilePath := none }, []⟩ := rfl

/-- C2: `QueueClient.publish_message` never raises for any pair of broker
outcomes; at the failing input (a non-stream-lost publish error) it returns
normally with the message undelivered, and `QueueManager.send_message`
consequently reports `True` for an undelivered message — so a caller
observing a non-error return cannot rely on delivery, contrary to the
relay contract the spec states and the callers assume. -/
theorem c2_publish_swallows_failures :
    (∀ a1 a2 : PubAttempt, (publishMessage a1 a2).raised = false) ∧
    publishMessage .otherError .otherError = ⟨false, false⟩ ∧
    sendMessage false .otherError .otherError = (true, false) := by
  refine ⟨?_, rfl, rfl⟩
  intro a1 a2
  cases a1 <;> cases a2 <;> rfl

/-- C3 counterexample: the state with status DOWNLOADING is reachable (the
download service commits it as its in-progress marker), and DOWNLOADING is
not one of PROCESSING, COMPLETED, FAILED — refuting the claim that the
status field is always one of exactly those three. -/
theorem c3_reachable_status_outside_trio :
    ReachableItem ⟨"DOWNLOADING", "DISCOVERY"⟩ ∧
    "DOWNLOADING" ∉ ["PROCESSING", "COMPLETED", "FAILED"] := by
  constructor
  · exact .step .init (.inProgress .download ⟨"PENDING", "DISCOVERY"⟩ "DOWNLOADING" rfl)
  · decide

/-- C3 (amended): every reachable status is one of the ten status strings the
call sites assign; the stage column is never written, so it stays DISCOVERY
(hence trivially never regresses); and FAILED is reachable from every
reachable state. -/
theorem c3_reachable_status_invariant (s : ItemState) (h : ReachableItem s) :
    s.status ∈ allowedStatuses ∧ s.stage = "DISCOVERY" ∧
    ReachableItem ⟨"FAILED", s.stage⟩ := by
  induction h with
  | init => exact ⟨by decide, rfl, .step .init (.failure _)⟩
  | @step s t hr hs ih =>
    refine ⟨?_, ?_, ?_⟩
    · cases hs with
      | inProgress svc s st hmap =>
        cases svc <;> simp [statusMapInProgress] at hmap <;>
          simp [← hmap, allowedStatuses]
      | completion svc s st hmap =>
        cases svc <;> simp [statusMapCompletion] at hmap <;>
          simp [← hmap, allowedStatuses]
      | failure s => simp [allowedStatuses]
    · cases hs <;> exact ih.2.1
    · exact .step (.step hr hs) (.failure t)

/-- Witness for `c3_reachable_status_invariant` at the creation state. -/
theorem c3_reachable_status_invariant_witness :
    "PENDING" ∈ allowedStatuses ∧ "DISCOVERY" = "DISCOVERY" ∧
    ReachableItem ⟨"FAILED", "DISCOVERY"⟩ :=
  c3_reachable_status_invariant ⟨"PENDING", "DISCOVERY"⟩ .init

/-- C4 counterexample: a successfully downloaded item's handoff message goes
to the audio-extraction queue — never to the summarization queue — because
the download service's publish target is the hard-coded string
`audio_extraction_queue` and no alternate-transcript routing exists (the row
model has no such field the code could consult). -/
theorem c4_download_handoff_not_to_summarization :
    (processDownloadTaskInternal (some { id := "vid1", status := "PENDING" })
      (some "/data/vid1.mp4") false .ok .ok).deliveredMsgs =
      [("audio_extraction_queue", "vid1")] ∧
    ("audio_extraction_queue" : String) ≠ "summarization_queue" := by
  refine ⟨rfl, by decide⟩

/-- C4 (amended): next-stage routing is fixed at construction — the template
maps download to the audio-extraction queue unconditionally, and every
handoff the download flow delivers goes to `audio_extraction_queue`, for
every item and every collaborator outcome. -/
theorem c4_download_routing_is_static (video : Option VideoRow) (dl : Option String)
    (declareRaises : Bool) (a1 a2 : PubAttempt) :
    nextQueueMap .download = some "audio_extraction_queue" ∧
    ((processDownloadTaskInternal video dl declareRaises a1 a2).deliveredMsgs.all
      (fun m => m.1 == "audio_extraction_queue")) = true := by
  refine ⟨rfl, ?_⟩
  rcases video with _ | v
  · rfl
  · rcases dl with _ | p
    · rfl
    · cases declareRaises
      · simp only [processDownloadTaskInternal]
        cases (publishMessage a1 a2).delivered <;> simp
      · rfl

/-- C5 counterexample: the transcription stage ignores its output artifact.
Here the transcription output already exists (`transcriptExists = true`), yet
the run still performs one external recognition call (the audio splits into a
single chunk) instead of the zero calls the claim requires. -/
theorem c5_transcription_stage_ignores_cache :
    (processTranscriptionTaskInternal
      (some { id := "vid1", status := "DOWNLOADED", audioFilePath := some "/data/a.wav" })
      true true 10000 10000 (fun _ => .ran (.ok "hello")) false .ok .ok).externalCalls
      = 1 := rfl

/-- C5 (amended): the download-audio and audio-extraction operations check
the deterministic artifact path and a hit short-circuits with zero external
calls, returning the cached artifact; the transcription flow never consults
the existence of its output artifact — its entire result is independent of
that flag. -/
theorem c5_cache_checks (ydlOk extractOk : Bool) (saveDir t u i : String)
    (video : Option VideoRow) (te1 te2 audioExists : Bool) (len cl : Nat)
    (oracle : Nat → ChunkTask) (dr : Bool) (a1 a2 : PubAttempt) :
    downloadAudio true ydlOk saveDir t u i = (some (audioFilepath saveDir t u i), 0) ∧
    extractAudio true extractOk = (true, 0) ∧
    processTranscriptionTaskInternal video te1 audioExists len cl oracle dr a1 a2 =
      processTranscriptionTaskInternal video te2 audioExists len cl oracle dr a1 a2 :=
  ⟨rfl, rfl, rfl⟩

/-- C6: the async bridge never drops a unit of work.  `schedule_task` runs
the unit synchronously in the caller's context exactly when the loop is
unavailable after the bounded wait, schedules it onto the event loop when the
loop is ready, and in both cases tracks a handle; the unit is always either
executed or queued on the loop. -/
theorem c6_schedule_never_drops {β : Type} (st : ProcessorState β) (u : Unit → β) :
    (scheduleTask st u).1 =
      (if loopAvailable st.loop then ScheduleOutcome.scheduled
       else ScheduleOutcome.ranSync (u ())) ∧
    ((scheduleTask st u).1 = ScheduleOutcome.ranSync (u ()) ∨
      ∃ l, (scheduleTask st u).2.loop = some l ∧ u ∈ l.pending) ∧
    (scheduleTask st u).2.internalTasks = st.internalTasks + 1 := by
  rcases st with ⟨loop, n⟩
  rcases loop with _ | ⟨closed, pending⟩
  · exact ⟨rfl, Or.inl rfl, rfl⟩
  · cases closed
    · refine ⟨rfl, Or.inr ⟨_, rfl, ?_⟩, rfl⟩
      exact List.mem_append.mpr (Or.inr (List.mem_singleton.mpr rfl))
    · exact ⟨rfl, Or.inl rfl, rfl⟩

/-- C7: transcribing a five-chunk audio in which chunk 3 fails (in any of the
four failure modes) and the other four chunks succeed yields exactly five
segments with chunk 3 replaced by the corresponding placeholder, and the
transcription reports overall success (a `some` transcript). -/
theorem c7_partial_chunk_failure (t0 t1 t3 t4 : String) (fk : FailingKind) :
    handleTranscriptionResults
      (processChunksConcurrently (chunkScenario5 t0 t1 t3 t4 fk)
        (prepareChunksIdx 50000 10000)) =
      [t0 ++ "\n", t1 ++ "\n", fk.placeholder, t3 ++ "\n", t4 ++ "\n"] ∧
    (handleTranscriptionResults
      (processChunksConcurrently (chunkScenario5 t0 t1 t3 t4 fk)
        (prepareChunksIdx 50000 10000))).length = 5 ∧
    transcribeAudio true 50000 10000 (chunkScenario5 t0 t1 t3 t4 fk) =
      some (String.intercalate " "
        [t0 ++ "\n", t1 ++ "\n", fk.placeholder, t3 ++ "\n", t4 ++ "\n"]) := by
  cases fk <;> exact ⟨rfl, rfl, rfl⟩

/-- C8 counterexample: with both channels failing at the broker (the fanout
publish failing twice with non-stream-lost errors, both Kafka sends failing),
`publish_event` still returns True: success is reported although neither
channel accepted the event, refuting the only-if direction of the claim. -/
theorem c8_event_success_without_acceptance :
    publishEvent .otherError .otherError false false = true ∧
    (eventPublisherPublish .otherError .otherError).delivered = false ∧
    (kafkaSendEvent false false).1 = none := ⟨rfl, rfl, rfl⟩

/-- C8 (amended): `publish_event` attempts both channels, never raises, and
— because both channel clients swallow their own delivery failures — always
returns True: success is reported whenever at least one channel accepted the
event, and also when none did.  WorkItem advancement in `handle_success` is
unchanged by any event-channel outcome. -/
theorem c8_event_sink_behaviour (r1 r2 : PubAttempt) (k1 k2 : Bool)
    (svc : ServiceType) (updateOk declareRaises : Bool) (a1 a2 : PubAttempt)
    (r1' r2' : PubAttempt) (k1' k2' : Bool) :
    publishEvent r1 r2 k1 k2 = true ∧
    handleSuccess svc updateOk declareRaises a1 a2 r1 r2 k1 k2 =
      handleSuccess svc updateOk declareRaises a1 a2 r1' r2' k1' k2' := by
  constructor
  · cases r1 <;> cases r2 <;> cases k1 <;> cases k2 <;> rfl
  · rfl

/-- Processing one discovery candidate increases the count by at most one. -/
theorem processDiscoveryEntry_count_le (fetch : String → Option VideoDetails)
    (ml : Option ℚ) (af : Bool) (pubs : String → PubAttempt × PubAttempt)
    (st : DiscoveryState) (e : String) :
    st.count ≤ (processDiscoveryEntry fetch ml af pubs st e).count ∧
    (processDiscoveryEntry fetch ml af pubs st e).count ≤ st.count + 1 := by
  unfold processDiscoveryEntry
  by_cases hmem : e ∈ st.dbIds
  · simp [hmem]
  · simp only [hmem, if_false]
    rcases fetch e with _ | d
    · simp
    · by_cases hv : isVideoValid d ml af
      · by_cases hr : (publishMessage (pubs e).1 (pubs e).2).raised
        · simp [hv, hr]
        · simp [hv, hr]
      · simp [hv]

/-- C9: a candidate whose id is already in the status store is a silent
no-op — the state (rows, publish calls, count) is exactly unchanged; if the
final count is still below the limit, every candidate was scanned (the run
equals the full fold over the candidate listing, i.e. the scan only stops
early because the limit was reached); and starting below the limit the count
never exceeds it — skipped candidates never count toward it. -/
theorem c9_discovery_dedup_and_limit (fetch : String → Option VideoDetails)
    (ml : Option ℚ) (af : Bool) (pubs : String → PubAttempt × PubAttempt)
    (n : Nat) (st : DiscoveryState) (entries : List String) (e : String) :
    (e ∈ st.dbIds → processDiscoveryEntry fetch ml af pubs st e = st) ∧
    ((runDiscovery fetch ml af pubs (some n) st entries).count < n →
      runDiscovery fetch ml af pubs (some n) st entries =
        List.foldl (processDiscoveryEntry fetch ml af pubs) st entries) ∧
    (st.count < n → (runDiscovery fetch ml af pubs (some n) st entries).count ≤ n) := by
  refine ⟨?_, ?_, ?_⟩
  · intro hmem
    unfold processDiscoveryEntry
    simp [hmem]
  · induction entries generalizing st with
    | nil => intro _; rfl
    | cons a rest ih =>
      intro hlt
      rw [runDiscovery] at hlt ⊢
      simp only [List.foldl]
      by_cases hge : (processDiscoveryEntry fetch ml af pubs st a).count ≥ n
      · simp only [hge, if_pos] at hlt
        omega
      · simp only [hge, if_neg, if_false] at hlt ⊢
        exact ih _ hlt
  · induction entries generalizing st with
    | nil => intro hlt; exact Nat.le_of_lt hlt
    | cons a rest ih =>
      intro hlt
      rw [runDiscovery]
      have hb := processDiscoveryEntry_count_le fetch ml af pubs st a
      by_cases hge : (processDiscoveryEntry fetch ml af pubs st a).count ≥ n
      · simp only [hge, if_pos]
        omega
      · simp only [hge, if_neg, if_false]
        exact ih _ (Nat.lt_of_not_le hge)

/-- Candidate-details oracle for the C9 witness: only `v2` resolves. -/
def discWitnessFetch : String → Option VideoDetails :=
  fun i => if i = "v2" then some ⟨"title", "20240101", some 60, false⟩ else none

/-- Broker oracle for the C9 witness: every publish attempt succeeds. -/
def discWitnessPubs : String → PubAttempt × PubAttempt :=
  fun _ => (.ok, .ok)

/-- Store state for the C9 witness: `v1` already present, nothing sent yet. -/
def discWitnessState : DiscoveryState := ⟨["v1"], [], 0⟩

/-- Witness for `c9_discovery_dedup_and_limit`: over the listing
`[v1, v2]` with `v1` already present and a limit of 5, the duplicate is a
no-op, the whole listing is scanned, and the count stays within the limit. -/
theorem c9_discovery_dedup_and_limit_witness :
    processDiscoveryEntry discWitnessFetch none false discWitnessPubs
      discWitnessState "v1" = discWitnessState ∧
    runDiscovery discWitnessFetch none false discWitnessPubs (some 5)
      discWitnessState ["v1", "v2"] =
      List.foldl (processDiscoveryEntry discWitnessFetch none false discWitnessPubs)
        discWitnessState ["v1", "v2"] ∧
    (runDiscovery discWitnessFetch none false discWitnessPubs (some 5)
      discWitnessState ["v1", "v2"]).count ≤ 5 := by
  obtain ⟨h1, h2, h3⟩ := c9_discovery_dedup_and_limit discWitnessFetch none false
    discWitnessPubs 5 discWitnessState ["v1", "v2"] "v1"
  refine ⟨h1 (by simp [discWitnessState]), h2 (by decide), h3 (by decide)⟩

/-- C10: `transcribe_audio` returns failure (`None`) exactly when the audio
file does not exist; whenever the file exists it returns a transcript string
(success), even in the extreme case where every single chunk fails — each
failed chunk contributing only the placeholder segment. -/
theorem c10_transcribe_total_on_existing_file (audioLen chunkLen : Nat)
    (oracle : Nat → ChunkTask) :
    transcribeAudio false audioLen chunkLen oracle = none ∧
    (transcribeAudio true audioLen chunkLen oracle).isSome = true ∧
    transcribeAudio true audioLen chunkLen (fun _ => ChunkTask.taskError) =
      some (String.intercalate " "
        (List.replicate (numChunks audioLen chunkLen) "[transcription error]\n")) := by
  refine ⟨rfl, rfl, ?_⟩
  simp only [transcribeAudio, processChunksConcurrently, handleTranscriptionResults,
    prepareChunksIdx, List.map_map, if_true, Option.some.injEq]
  congr 1
  have : ((fun r => match r with
      | .error _ => "[transcription error]\n"
      | .ok s => s) ∘ fun i =>
        match (fun _ => ChunkTask.taskError) i with
        | .ran o => Except.ok (transcribeChunkSync o)
        | .taskError => Except.error ()) =
      (fun _ : Nat => "[transcription error]\n") := rfl
  rw [this, List.map_const', List.length_range]

end YCS
